import Mathlib

/-!
Shallow embedding of the GltfPlugin (src/plugin.ts) of the mapgl-gltf
repository: the pointer-to-mesh coordinate conversion, the host event
handlers, the model load coordinator with its two strategies, model
removal, the per-frame camera synchronization, and the readiness gate.
Machine numbers are modelled by rationals; the host map, the three.js
raycaster and the matrix decompose primitive are external collaborators
and enter as explicit parameters or as recorded effects.
-/

namespace MapglGltf

/-! ## Viewport and pointer conversion (GltfPlugin.getEventTargetMesh) -/

/-- The bounding client rectangle of the map container, as stored in
`this.viewport` of the plugin. -/
structure Viewport where
  x : ℚ
  y : ℚ
  width : ℚ
  height : ℚ
deriving DecidableEq

/-- Local surface coordinates of the cursor inside the viewport:
`localX = clientX - viewport.x` and `localY = viewport.height - (clientY - viewport.y)`
as computed in getEventTargetMesh. -/
def localCoords (v : Viewport) (clientX clientY : ℚ) : ℚ × ℚ :=
  (clientX - v.x, v.height - (clientY - v.y))

/-- The normalized device coordinates written into `this.pointer` by
getEventTargetMesh: `(localX / width) * 2 - 1` and `(localY / height) * 2 - 1`. -/
def computePointer (v : Viewport) (clientX clientY : ℚ) : ℚ × ℚ :=
  let l := localCoords v clientX clientY
  (l.1 / v.width * 2 - 1, l.2 / v.height * 2 - 1)

/-! ## Pointer events and the mesh hit test -/

/-- The properties object of a geojson feature, only its `type` field matters. -/
structure PoiProps where
  type : Option String
deriving DecidableEq

/-- A geojson feature carried by a map pointer event. -/
structure PoiFeature where
  properties : Option PoiProps
deriving DecidableEq

/-- The `targetData` of a map pointer event. -/
structure TargetData where
  type : String
  feature : Option PoiFeature
deriving DecidableEq

/-- A host map pointer event: the feature metadata used by isGeoJsonPoi, the
geographic coordinate, the screen point, an abstract token standing for the
original DOM input event, and the client coordinates of that DOM event. -/
structure MapPointerEvent where
  targetData : Option TargetData
  lngLat : ℚ × ℚ
  point : ℚ × ℚ
  originalEvent : Nat
  clientX : ℚ
  clientY : ℚ
deriving DecidableEq

/-- Embedding of GltfPlugin.isGeoJsonPoi: the target feature comes from the
geojson source and its declared semantic type is the immersive poi marker,
with every optional access defaulting to a failed test. -/
def isGeoJsonPoi (e : MapPointerEvent) : Bool :=
  match e.targetData with
  | none => false
  | some td =>
    td.type == "geojson" &&
      (match td.feature with
       | some f =>
         (match f.properties with
          | some p => p.type == some "immersive_poi"
          | none => false)
       | none => false)

/-- The slice of a three.js scene object inspected by getEventTargetMesh:
its `type` string and the `userData.modelId` put on it by the loader. -/
structure Object3DInfo where
  type : String
  userDataModelId : String
deriving DecidableEq

/-- One entry of the array returned by `raycaster.intersectObjects`. -/
structure Intersection where
  object : Object3DInfo
deriving DecidableEq

/-- Embedding of GltfPlugin.getEventTargetMesh: convert the client
coordinates to normalized device coordinates, run the (external) raycaster
on them, take the first intersection, and accept it only when the
intersected object has type Mesh. -/
def getEventTargetMesh (raycast : ℚ × ℚ → List Intersection) (v : Viewport)
    (clientX clientY : ℚ) : Option Intersection :=
  let p := computePointer v clientX clientY
  let intersects := raycast p
  match intersects.head? with
  | some t => if t.object.type == "Mesh" then some t else none
  | none => none

/-- The events the plugin can emit from its pointer handlers. -/
inductive PluginEvent where
  | mousemovePoi (e : MapPointerEvent)
  | mouseoverPoi (e : MapPointerEvent)
  | mouseoutPoi (e : MapPointerEvent)
  | clickPoi (e : MapPointerEvent)
  | clickModel (modelId : String) (lngLat : ℚ × ℚ) (point : ℚ × ℚ) (originalEvent : Nat)
deriving DecidableEq

/-- Whether an emitted event is poi flavored. -/
def isPoiEvent : PluginEvent → Bool
  | .mousemovePoi _ => true
  | .mouseoverPoi _ => true
  | .mouseoutPoi _ => true
  | .clickPoi _ => true
  | .clickModel _ _ _ _ => false

/-- Whether an emitted event is model flavored. -/
def isModelEvent : PluginEvent → Bool
  | .clickModel _ _ _ _ => true
  | _ => false

/-- The host level events bound in GltfPlugin.bindEvents. -/
inductive HostEvent where
  | mousemove
  | mouseover
  | mouseout
  | click
  | resize
deriving DecidableEq

/-- Embedding of the handlers registered in GltfPlugin.bindEvents for one
incoming host event: the list of plugin events emitted, paired with the
number of mesh hit tests performed. The mousemove model handler calls
getEventTargetMesh but only logs to the console, so it emits nothing; the
mouseover and mouseout handlers run no hit test at all; only the click
handler emits a model flavored event, carrying the modelId from the hit
object together with lngLat, point and the original DOM event. -/
def handleHostEvent (raycast : ℚ × ℚ → List Intersection) (v : Viewport)
    (he : HostEvent) (e : MapPointerEvent) : List PluginEvent × Nat :=
  match he with
  | .resize => ([], 0)
  | .mousemove =>
    let poi := if isGeoJsonPoi e then [PluginEvent.mousemovePoi e] else []
    let _hover := getEventTargetMesh raycast v e.clientX e.clientY
    (poi, 1)
  | .mouseover =>
    ((if isGeoJsonPoi e then [PluginEvent.mouseoverPoi e] else []), 0)
  | .mouseout =>
    ((if isGeoJsonPoi e then [PluginEvent.mouseoutPoi e] else []), 0)
  | .click =>
    let poi := if isGeoJsonPoi e then [PluginEvent.clickPoi e] else []
    let model :=
      match getEventTargetMesh raycast v e.clientX e.clientY with
      | some t =>
        [PluginEvent.clickModel t.object.userDataModelId e.lngLat e.point e.originalEvent]
      | none => []
    (poi ++ model, 1)

/-! ## Model load coordinator (GltfPlugin.addModels, removeModel) -/

/-- A javascript `string | number` model identifier, normalized by
`String(id)` before registry lookup. -/
inductive JsId where
  | str (s : String)
  | num (n : Int)
deriving DecidableEq

/-- The `String(id)` normalization applied at every registry access. -/
def JsId.toStr : JsId → String
  | .str s => s
  | .num n => toString n

/-- A loaded three.js scene node is identified here by the registry key the
loader stores it under. -/
abbrev Model3D := String

/-- The slice of ModelOptions that the addModels coordinator reads: the
identifier and the optional linked 2d feature identifiers. -/
structure ModelOptions where
  id : JsId
  linkedIds : Option (List String)
deriving DecidableEq

/-- Insertion into the `Map` returned by `loader.getModels()`: a javascript
Map keeps the original position of an overwritten key and appends a new
key at the end. -/
def registryInsert (r : List Model3D) (k : Model3D) : List Model3D :=
  if k ∈ r then r else r ++ [k]

/-- Modelled from the spec: the Loader class (src/loader.ts, whose source is
not part of the provided files) fetches and decodes one model and, on
success, inserts it into the registry keyed by the String form of its
identifier; on decode failure the promise rejects and the registry is
untouched; it never mutates the scene graph. The boolean argument is the
outcome of the external fetch and decode. -/
def loadModel (r : List Model3D) (opts : ModelOptions) (ok : Bool) : List Model3D :=
  if ok then registryInsert r opts.id.toStr else r

/-- Adding a node to a three.js scene: the node is first detached from any
previous parent, so a second add moves the node to the end instead of
duplicating it. -/
def sceneAdd (children : List Model3D) (m : Model3D) : List Model3D :=
  children.filter (fun c => c ≠ m) ++ [m]

/-- Removing a node from a three.js scene: removing a node that is not a
child leaves the children untouched. -/
def sceneRemove (children : List Model3D) (m : Model3D) : List Model3D :=
  children.filter (fun c => c ≠ m)

/-- The two batch reveal strategies of the plugin options. -/
inductive LoadStrategy where
  | waitAll
  | dontWaitAll
deriving DecidableEq

/-- The observable state the load coordinator mutates: the model registry,
the scene graph children, the record of `map.setHiddenObjects` calls and
the number of `map.triggerRerender` calls. -/
structure PluginState where
  registry : List Model3D
  sceneChildren : List Model3D
  hiddenCalls : List (List String)
  rerenders : Nat
deriving DecidableEq

/-- The plugin state before any model was loaded. -/
def initialState : PluginState := ⟨[], [], [], 0⟩

/-- The completion of one individual load inside addModels: the loader
resolves or rejects (updating the registry on success), and the attached
then callback runs on success only; under dontWaitAll it hides the linked
feature identifiers when present, attaches the registry entry for the
identifier to the scene when found, and triggers a host rerender; under
waitAll the callback body is skipped. -/
def completeLoad (strategy : LoadStrategy) (s : PluginState)
    (opts : ModelOptions) (ok : Bool) : PluginState :=
  let s1 : PluginState := { s with registry := loadModel s.registry opts ok }
  if ok then
    match strategy with
    | .waitAll => s1
    | .dontWaitAll =>
      let s2 : PluginState := { s1 with hiddenCalls := s1.hiddenCalls ++ opts.linkedIds.toList }
      let s3 : PluginState :=
        if opts.id.toStr ∈ s2.registry then
          { s2 with sceneChildren := sceneAdd s2.sceneChildren opts.id.toStr }
        else s2
      { s3 with rerenders := s3.rerenders + 1 }
  else s1

/-- Embedding of GltfPlugin.addModels. The individual loads resolve in the
order given by `completionOrder` (a permutation of `requests`), each with
the outcome `result`; afterwards `Promise.all` resolves exactly when every
load succeeded, in which case the waitAll branch hides the linked
identifiers of every request (in request order), attaches every model of
the registry to the scene and triggers one rerender. The boolean of the
result is the outcome of the promise returned to the caller; even when it
rejects, every individual then callback has already run. -/
def addModels (strategy : LoadStrategy) (s : PluginState)
    (requests : List ModelOptions) (result : ModelOptions → Bool)
    (completionOrder : List ModelOptions) : PluginState × Bool :=
  let s1 := completionOrder.foldl (fun st o => completeLoad strategy st o (result o)) s
  if requests.all result then
    match strategy with
    | .waitAll =>
      let s2 := requests.foldl
        (fun st o => { st with hiddenCalls := st.hiddenCalls ++ o.linkedIds.toList }) s1
      let s3 : PluginState :=
        { s2 with sceneChildren := s2.registry.foldl sceneAdd s2.sceneChildren }
      ({ s3 with rerenders := s3.rerenders + 1 }, true)
    | .dontWaitAll => (s1, true)
  else (s1, false)

/-- Embedding of GltfPlugin.removeModel: look the normalized identifier up
in the registry; when absent, return at once; when present, remove the node
from the scene and trigger a rerender. The registry itself is never
modified. -/
def removeModel (s : PluginState) (id : JsId) : PluginState :=
  if id.toStr ∈ s.registry then
    { s with sceneChildren := sceneRemove s.sceneChildren id.toStr,
             rerenders := s.rerenders + 1 }
  else s

/-! ## Per frame camera synchronization (GltfPlugin.render) -/

/-- A 4 by 4 matrix of rationals, standing for a three.js Matrix4. -/
abbrev Mat4 := Matrix (Fin 4) (Fin 4) ℚ

/-- The three.js Matrix4.invert operation: the inverse through the adjugate
formula, with the zero matrix produced when the determinant vanishes. -/
def mat4Invert (m : Mat4) : Mat4 :=
  if m.det = 0 then 0 else m.det⁻¹ • m.adjugate

/-- A three.js Vector3 of rationals. -/
structure Vec3 where
  x : ℚ
  y : ℚ
  z : ℚ
deriving DecidableEq

/-- A three.js Quaternion of rationals. -/
structure Quat where
  x : ℚ
  y : ℚ
  z : ℚ
  w : ℚ
deriving DecidableEq

/-- The camera fields written by GltfPlugin.render each frame. -/
structure CameraState where
  projectionMatrix : Mat4
  projectionMatrixInverse : Mat4
  matrixWorldInverse : Mat4
  matrixWorld : Mat4
  matrix : Mat4
  position : Vec3
  quaternion : Quat
  scale : Vec3

/-- Embedding of the camera part of GltfPlugin.render: the projection matrix
comes from `map.getProjectionMatrixForGltfPlugin()` and its inverse is
taken; the world inverse matrix is that inverse times the generic
`map.getProjectionMatrix()`; the world matrix is the inverse of the world
inverse and is copied into the camera matrix, which is then decomposed by
the external three.js decompose primitive into position, quaternion and
scale. -/
def renderCamera (decompose : Mat4 → Vec3 × Quat × Vec3)
    (pluginProjection genericProjection : Mat4) : CameraState :=
  let pm := pluginProjection
  let pmi := mat4Invert pm
  let mwi := pmi * genericProjection
  let mw := mat4Invert mwi
  let d := decompose mw
  { projectionMatrix := pm
    projectionMatrixInverse := pmi
    matrixWorldInverse := mwi
    matrixWorld := mw
    matrix := mw
    position := d.1
    quaternion := d.2.1
    scale := d.2.2 }

/-! ## Readiness gating (waitForPluginInit, onPluginInit, initThree) -/

/-- The public scene mutating api calls gated on the readiness promise. -/
inductive ApiCall where
  | addModel
  | addModels
  | addPoiGroup
deriving DecidableEq

/-- One scheduling event: a public api call arriving, or onPluginInit being
invoked at the end of initThree. -/
inductive PluginEventStep where
  | apiCall (c : ApiCall)
  | fireInit
deriving DecidableEq

/-- The readiness gate state: whether waitForPluginInit has resolved, the
continuations queued on it, and the api call bodies that have run, in
order. -/
structure InitState where
  fired : Bool
  pending : List ApiCall
  performed : List ApiCall
deriving DecidableEq

/-- One scheduling step: a call arriving after the promise resolved runs its
body at once; a call arriving earlier queues on the promise; resolving the
promise releases the queue in order, and resolving an already resolved
promise is a no-op. -/
def initStep (s : InitState) : PluginEventStep → InitState
  | .apiCall c =>
    if s.fired then { s with performed := s.performed ++ [c] }
    else { s with pending := s.pending ++ [c] }
  | .fireInit =>
    if s.fired then s
    else { fired := true, pending := [], performed := s.performed ++ s.pending }

/-- Run a whole schedule from the fresh plugin state. -/
def initRun (events : List PluginEventStep) : InitState :=
  events.foldl initStep ⟨false, [], []⟩

/-- The api calls of a schedule, in arrival order. -/
def traceCalls (events : List PluginEventStep) : List ApiCall :=
  events.filterMap (fun e => match e with | .apiCall c => some c | .fireInit => none)

/-! ## Concrete sample data -/

/-- The viewport of the end-to-end scenario of the spec. -/
def sampleViewport : Viewport := ⟨0, 0, 800, 600⟩

/-- A raycaster intersection whose object is a renderable mesh. -/
def sampleMeshHit : Intersection := ⟨⟨"Mesh", "m1"⟩⟩

/-- A raycaster that reports a mesh hit wherever it is asked. -/
def sampleRaycast : ℚ × ℚ → List Intersection := fun _ => [sampleMeshHit]

/-- A pointer event whose target feature is an immersive poi. -/
def samplePoiEvent : MapPointerEvent :=
  { targetData :=
      some { type := "geojson"
             feature := some { properties := some { type := some "immersive_poi" } } }
    lngLat := (82, 54)
    point := (400, 300)
    originalEvent := 7
    clientX := 400
    clientY := 300 }

/-- Load request for the model A of the end-to-end scenario. -/
def optionsA : ModelOptions := ⟨.str "A", none⟩

/-- Load request for the model B of the end-to-end scenario. -/
def optionsB : ModelOptions := ⟨.str "B", some ["b1", "b2"]⟩

/-- A third load request, with one linked feature identifier. -/
def optionsC : ModelOptions := ⟨.str "C", some ["c1"]⟩

/-- The load outcome in which exactly the request for B fails to decode. -/
def failB : ModelOptions → Bool := fun o => o.id != JsId.str "B"

/-- The load outcome in which every request succeeds. -/
def allOk : ModelOptions → Bool := fun _ => true

/-- A stand-in for the external three.js decompose primitive. -/
def decomposeZero : Mat4 → Vec3 × Quat × Vec3 :=
  fun _ => (⟨0, 0, 0⟩, ⟨0, 0, 0, 1⟩, ⟨1, 1, 1⟩)

/-- A schedule in which two api calls arrive before the ready signal and one
after it. -/
def sampleSchedule : List PluginEventStep :=
  [.apiCall .addModels, .apiCall .addPoiGroup, .fireInit, .apiCall .addModel]

/-- A plugin state in which the model A is registered and attached. -/
def stateWithA : PluginState := ⟨["A"], ["A"], [], 0⟩

/-! ## Theorems -/

/-- Claim C5: for every viewport rectangle with positive width and height
and every pointer event with client coordinates strictly inside the
rectangle, the pointer-to-mesh conversion computes
localX = clientX - viewport.x, localY = viewport.height - (clientY - viewport.y),
ndcX = (localX/viewport.width)*2 - 1, ndcY = (localY/viewport.height)*2 - 1,
and the resulting pair lies in [-1,1] x [-1,1]. -/
theorem claim_C5_ndc_inside (v : Viewport) (clientX clientY : ℚ)
    (hw : 0 < v.width) (hh : 0 < v.height)
    (hx1 : v.x < clientX) (hx2 : clientX < v.x + v.width)
    (hy1 : v.y < clientY) (hy2 : clientY < v.y + v.height) :
    computePointer v clientX clientY =
      ((clientX - v.x) / v.width * 2 - 1,
       (v.height - (clientY - v.y)) / v.height * 2 - 1) ∧
    -1 ≤ (computePointer v clientX clientY).1 ∧
    (computePointer v clientX clientY).1 ≤ 1 ∧
    -1 ≤ (computePointer v clientX clientY).2 ∧
    (computePointer v clientX clientY).2 ≤ 1 := by
  have hx0 : 0 < clientX - v.x := by linarith
  have hxw : clientX - v.x < v.width := by linarith
  have hy0 : 0 < v.height - (clientY - v.y) := by linarith
  have hyh : v.height - (clientY - v.y) < v.height := by linarith
  have h1 : 0 < (clientX - v.x) / v.width := div_pos hx0 hw
  have h2 : (clientX - v.x) / v.width < 1 := (div_lt_one hw).mpr hxw
  have h3 : 0 < (v.height - (clientY - v.y)) / v.height := div_pos hy0 hh
  have h4 : (v.height - (clientY - v.y)) / v.height < 1 := (div_lt_one hh).mpr hyh
  refine ⟨rfl, ?_, ?_, ?_, ?_⟩
  · show -1 ≤ (clientX - v.x) / v.width * 2 - 1
    linarith
  · show (clientX - v.x) / v.width * 2 - 1 ≤ 1
    linarith
  · show -1 ≤ (v.height - (clientY - v.y)) / v.height * 2 - 1
    linarith
  · show (v.height - (clientY - v.y)) / v.height * 2 - 1 ≤ 1
    linarith

/-- Witness for claim C5 at the end-to-end scenario of the spec: viewport
origin (0,0), width 800, height 600, pointer (400,300) give the normalized
device coordinates (0,0), and they lie in the unit square. -/
theorem claim_C5_witness :
    computePointer sampleViewport 400 300 = (0, 0) ∧
    (-1 ≤ (computePointer sampleViewport 400 300).1 ∧
     (computePointer sampleViewport 400 300).1 ≤ 1 ∧
     -1 ≤ (computePointer sampleViewport 400 300).2 ∧
     (computePointer sampleViewport 400 300).2 ≤ 1) :=
  ⟨by norm_num [computePointer, localCoords, sampleViewport, Prod.ext_iff],
   (claim_C5_ndc_inside sampleViewport 400 300 (by norm_num [sampleViewport])
      (by norm_num [sampleViewport]) (by norm_num [sampleViewport])
      (by norm_num [sampleViewport]) (by norm_num [sampleViewport])
      (by norm_num [sampleViewport])).2⟩

/-! ### Readiness gate lemmas and claim C7 -/

theorem traceCalls_cons_api (c : ApiCall) (es : List PluginEventStep) :
    traceCalls (.apiCall c :: es) = c :: traceCalls es := rfl

theorem traceCalls_cons_fire (es : List PluginEventStep) :
    traceCalls (.fireInit :: es) = traceCalls es := rfl

theorem foldl_initStep_fired (es : List PluginEventStep) :
    ∀ (p q : List ApiCall),
      es.foldl initStep ⟨true, p, q⟩ = ⟨true, p, q ++ traceCalls es⟩ := by
  induction es with
  | nil => intro p q; simp [traceCalls]
  | cons e es ih =>
    intro p q
    cases e with
    | apiCall c =>
      have h1 : initStep ⟨true, p, q⟩ (.apiCall c) = ⟨true, p, q ++ [c]⟩ := rfl
      simp [List.foldl_cons, h1, ih, traceCalls_cons_api]
    | fireInit =>
      have h1 : initStep ⟨true, p, q⟩ .fireInit = ⟨true, p, q⟩ := rfl
      simp [List.foldl_cons, h1, ih, traceCalls_cons_fire]

theorem initRun_key (es : List PluginEventStep) :
    ∀ (p : List ApiCall),
      (PluginEventStep.fireInit ∈ es →
        es.foldl initStep ⟨false, p, []⟩ = ⟨true, [], p ++ traceCalls es⟩) ∧
      (PluginEventStep.fireInit ∉ es →
        es.foldl initStep ⟨false, p, []⟩ = ⟨false, p ++ traceCalls es, []⟩) := by
  induction es with
  | nil =>
    intro p
    refine ⟨fun h => absurd h (by simp), fun _ => by simp [traceCalls]⟩
  | cons e es ih =>
    intro p
    cases e with
    | apiCall c =>
      have h1 : initStep ⟨false, p, []⟩ (.apiCall c) = ⟨false, p ++ [c], []⟩ := rfl
      constructor
      · intro h
        have hmem : PluginEventStep.fireInit ∈ es := by
          rcases List.mem_cons.mp h with h' | h'
          · exact absurd h' (by simp)
          · exact h'
        simp [List.foldl_cons, h1, (ih (p ++ [c])).1 hmem, traceCalls_cons_api]
      · intro h
        have hmem : PluginEventStep.fireInit ∉ es :=
          fun hc => h (List.mem_cons_of_mem _ hc)
        simp [List.foldl_cons, h1, (ih (p ++ [c])).2 hmem, traceCalls_cons_api]
    | fireInit =>
      have h1 : initStep ⟨false, p, []⟩ .fireInit = ⟨true, [], p⟩ := rfl
      constructor
      · intro _
        simp [List.foldl_cons, h1, foldl_initStep_fired, traceCalls_cons_fire]
      · intro h; exact absurd (List.mem_cons_self _ _) h

/-- Claim C7: every call to addModel, addModels or addPoiGroup suspends on
the one-time plugin ready signal: on any schedule in which the signal never
fires, no call body has run and every call is queued behind the signal in
arrival order; on any schedule in which the signal fires (a second firing
being a no-op), the queue is empty and exactly the call bodies of the
schedule have run, in arrival order — so calls made before readiness do not
fail but wait for the signal. -/
theorem claim_C7_readiness_gating (es : List PluginEventStep) :
    (PluginEventStep.fireInit ∈ es →
      initRun es = ⟨true, [], traceCalls es⟩) ∧
    (PluginEventStep.fireInit ∉ es →
      initRun es = ⟨false, traceCalls es, []⟩) := by
  have h := initRun_key es []
  exact ⟨fun hm => by simpa [initRun] using h.1 hm,
         fun hm => by simpa [initRun] using h.2 hm⟩

/-- Witness for claim C7: on a concrete schedule with two calls before the
ready signal and one after it, all three bodies run, in order, and the
queue ends empty. -/
theorem claim_C7_witness :
    PluginEventStep.fireInit ∈ sampleSchedule ∧
    initRun sampleSchedule = ⟨true, [], traceCalls sampleSchedule⟩ :=
  ⟨by decide, (claim_C7_readiness_gating sampleSchedule).1 (by decide)⟩

/-! ### Load coordinator lemmas -/

theorem completeLoad_waitAll (st : PluginState) (o : ModelOptions) (b : Bool) :
    completeLoad .waitAll st o b = { st with registry := loadModel st.registry o b } := by
  cases b <;> rfl

theorem foldl_completeLoad_waitAll (res : ModelOptions → Bool) :
    ∀ (ord : List ModelOptions) (st : PluginState),
      ord.foldl (fun a o => completeLoad .waitAll a o (res o)) st =
        { st with registry := ord.foldl (fun r o => loadModel r o (res o)) st.registry } := by
  intro ord
  induction ord with
  | nil => intro st; rfl
  | cons o ord ih =>
    intro st
    rw [List.foldl_cons, completeLoad_waitAll, ih]
    rfl

theorem mem_registryInsert_self (r : List Model3D) (k : Model3D) :
    k ∈ registryInsert r k := by
  by_cases h : k ∈ r <;> simp [registryInsert, h]

theorem mem_registryInsert_of_mem (r : List Model3D) (k m : Model3D)
    (h : m ∈ r) : m ∈ registryInsert r k := by
  by_cases hk : k ∈ r <;> simp [registryInsert, hk, h]

theorem mem_loadModel_of_mem (r : List Model3D) (o : ModelOptions) (b : Bool)
    (m : Model3D) (h : m ∈ r) : m ∈ loadModel r o b := by
  cases b
  · simpa [loadModel] using h
  · simpa [loadModel] using mem_registryInsert_of_mem r o.id.toStr m h

theorem mem_foldl_loadModel_of_mem (res : ModelOptions → Bool) :
    ∀ (ord : List ModelOptions) (r : List Model3D) (m : Model3D),
      m ∈ r → m ∈ ord.foldl (fun r o => loadModel r o (res o)) r := by
  intro ord
  induction ord with
  | nil => intro r m h; simpa using h
  | cons o ord ih =>
    intro r m h
    exact ih _ _ (mem_loadModel_of_mem _ _ _ _ h)

theorem mem_foldl_loadModel_of_ok (res : ModelOptions → Bool) :
    ∀ (ord : List ModelOptions) (r : List Model3D) (o : ModelOptions),
      o ∈ ord → res o = true →
      o.id.toStr ∈ ord.foldl (fun r o => loadModel r o (res o)) r := by
  intro ord
  induction ord with
  | nil => intro r o h _; exact absurd h (by simp)
  | cons o' ord ih =>
    intro r o hmem hok
    rcases List.mem_cons.mp hmem with rfl | h
    · simp only [List.foldl_cons]
      apply mem_foldl_loadModel_of_mem
      rw [hok]
      simpa [loadModel] using mem_registryInsert_self r o.id.toStr
    · exact ih _ _ h hok

theorem mem_sceneAdd_self (c : List Model3D) (m : Model3D) : m ∈ sceneAdd c m := by
  simp [sceneAdd]

theorem mem_sceneAdd_of_mem (c : List Model3D) (m x : Model3D) (h : x ∈ c) :
    x ∈ sceneAdd c m := by
  by_cases hx : x = m
  · subst hx; simp [sceneAdd]
  · simp [sceneAdd, List.mem_filter, h, hx]

theorem mem_foldl_sceneAdd_of_mem (r : List Model3D) :
    ∀ (c : List Model3D) (x : Model3D), x ∈ c → x ∈ r.foldl sceneAdd c := by
  induction r with
  | nil => intro c x h; simpa using h
  | cons m r ih => intro c x h; exact ih _ _ (mem_sceneAdd_of_mem _ _ _ h)

theorem mem_foldl_sceneAdd_of_mem_registry (r : List Model3D) :
    ∀ (c : List Model3D) (m : Model3D), m ∈ r → m ∈ r.foldl sceneAdd c := by
  induction r with
  | nil => intro c m h; exact absurd h (by simp)
  | cons m' r ih =>
    intro c m h
    rcases List.mem_cons.mp h with rfl | h'
    · exact mem_foldl_sceneAdd_of_mem r _ _ (mem_sceneAdd_self c m)
    · exact ih _ _ h'

theorem foldl_hide_linked (reqs : List ModelOptions) :
    ∀ (st : PluginState),
      reqs.foldl
          (fun st o => { st with hiddenCalls := st.hiddenCalls ++ o.linkedIds.toList }) st =
        { st with hiddenCalls := st.hiddenCalls ++ reqs.filterMap (fun o => o.linkedIds) } := by
  induction reqs with
  | nil => intro st; simp
  | cons o reqs ih =>
    intro st
    simp only [List.foldl_cons, ih]
    cases h : o.linkedIds <;> simp [List.filterMap_cons, h, Option.toList]

/-- Claim C1: under the waitAll strategy, if at least one individual load of
an addModels batch fails then the promise returned by addModels fails and
the scene graph is left exactly as it was, so no model of the batch is
attached — not even one whose individual load succeeded. -/
theorem claim_C1_waitAll_failure_reveals_nothing (s : PluginState)
    (requests : List ModelOptions) (res : ModelOptions → Bool)
    (ord : List ModelOptions) (_hperm : ord.Perm requests)
    (hfail : ∃ o ∈ requests, res o = false) :
    (addModels .waitAll s requests res ord).2 = false ∧
    (addModels .waitAll s requests res ord).1.sceneChildren = s.sceneChildren ∧
    ∀ o ∈ requests, o.id.toStr ∉ s.sceneChildren →
      o.id.toStr ∉ (addModels .waitAll s requests res ord).1.sceneChildren := by
  obtain ⟨o, hmem, hres⟩ := hfail
  have hall : requests.all res = false := by
    cases hallc : requests.all res with
    | false => rfl
    | true =>
      have := List.all_eq_true.mp hallc o hmem
      rw [hres] at this
      cases this
  have hstate : addModels .waitAll s requests res ord =
      (ord.foldl (fun st o => completeLoad .waitAll st o (res o)) s, false) := by
    simp [addModels, hall]
  rw [hstate, foldl_completeLoad_waitAll]
  exact ⟨rfl, rfl, fun _ _ h => h⟩

/-- Witness for claim C1: a two element batch in which the load of B fails,
completing in the order B then A, rejects and leaves the fresh scene graph
empty. -/
theorem claim_C1_witness :
    (List.Perm [optionsB, optionsA] [optionsA, optionsB] ∧
      ∃ o ∈ [optionsA, optionsB], failB o = false) ∧
    (addModels .waitAll initialState [optionsA, optionsB] failB
        [optionsB, optionsA]).2 = false ∧
    (addModels .waitAll initialState [optionsA, optionsB] failB
        [optionsB, optionsA]).1.sceneChildren = [] := by
  have h := claim_C1_waitAll_failure_reveals_nothing initialState
    [optionsA, optionsB] failB [optionsB, optionsA] (by decide) (by decide)
  exact ⟨⟨by decide, by decide⟩, h.1, h.2.1⟩

/-- Claim C4: under the waitAll strategy, when every load of the batch
succeeds, addModels resolves; the coordinator hides the linked feature
identifiers of every request of the batch that has them (in request order),
attaches every model present in the model registry — not only the models of
this batch — to the scene graph, and triggers exactly one host redraw. -/
theorem claim_C4_waitAll_success_reveals_registry (s : PluginState)
    (requests : List ModelOptions) (res : ModelOptions → Bool)
    (ord : List ModelOptions) (hperm : ord.Perm requests)
    (hok : ∀ o ∈ requests, res o = true) :
    (addModels .waitAll s requests res ord).2 = true ∧
    (addModels .waitAll s requests res ord).1.hiddenCalls =
      s.hiddenCalls ++ requests.filterMap (fun o => o.linkedIds) ∧
    (∀ m ∈ s.registry, m ∈ (addModels .waitAll s requests res ord).1.sceneChildren) ∧
    (∀ o ∈ requests,
      o.id.toStr ∈ (addModels .waitAll s requests res ord).1.sceneChildren) ∧
    (addModels .waitAll s requests res ord).1.rerenders = s.rerenders + 1 := by
  have hall : requests.all res = true := List.all_eq_true.mpr hok
  have hstate : addModels .waitAll s requests res ord =
      ({ registry := ord.foldl (fun r o => loadModel r o (res o)) s.registry,
         sceneChildren :=
           (ord.foldl (fun r o => loadModel r o (res o)) s.registry).foldl
             sceneAdd s.sceneChildren,
         hiddenCalls := s.hiddenCalls ++ requests.filterMap (fun o => o.linkedIds),
         rerenders := s.rerenders + 1 }, true) := by
    simp only [addModels, hall, if_true]
    rw [foldl_completeLoad_waitAll, foldl_hide_linked]
  rw [hstate]
  refine ⟨rfl, rfl, ?_, ?_, rfl⟩
  · intro m hm
    exact mem_foldl_sceneAdd_of_mem_registry _ _ _
      (mem_foldl_loadModel_of_mem res ord s.registry m hm)
  · intro o hmem
    exact mem_foldl_sceneAdd_of_mem_registry _ _ _
      (mem_foldl_loadModel_of_ok res ord s.registry o
        (hperm.mem_iff.mpr hmem) (hok o hmem))

/-- Witness for claim C4: a two element batch that fully succeeds,
completing in reverse order, resolves, records the one linked identifier
hide, attaches both batch models and triggers exactly one redraw. -/
theorem claim_C4_witness :
    (List.Perm [optionsC, optionsA] [optionsA, optionsC] ∧
      ∀ o ∈ [optionsA, optionsC], allOk o = true) ∧
    (addModels .waitAll initialState [optionsA, optionsC] allOk
        [optionsC, optionsA]).2 = true ∧
    (addModels .waitAll initialState [optionsA, optionsC] allOk
        [optionsC, optionsA]).1.hiddenCalls = [["c1"]] ∧
    (∀ o ∈ [optionsA, optionsC],
      o.id.toStr ∈ (addModels .waitAll initialState [optionsA, optionsC] allOk
        [optionsC, optionsA]).1.sceneChildren) ∧
    (addModels .waitAll initialState [optionsA, optionsC] allOk
        [optionsC, optionsA]).1.rerenders = 1 := by
  have h := claim_C4_waitAll_success_reveals_registry initialState
    [optionsA, optionsC] allOk [optionsC, optionsA] (by decide) (by decide)
  refine ⟨⟨by decide, by decide⟩, h.1, ?_, h.2.2.2.1, h.2.2.2.2⟩
  rw [h.2.1]
  decide

theorem sceneAdd_not_mem (c : List Model3D) (m : Model3D) (h : m ∉ c) :
    sceneAdd c m = c ++ [m] := by
  unfold sceneAdd
  congr 1
  apply List.filter_eq_self.mpr
  intro a ha
  simp only [decide_eq_true_eq]
  exact fun he => h (he ▸ ha)

theorem foldl_completeLoad_dontWaitAll (res : ModelOptions → Bool) :
    ∀ (ord : List ModelOptions) (st : PluginState),
      (∀ o ∈ ord, o.id.toStr ∉ st.sceneChildren) →
      (ord.map (fun o => o.id.toStr)).Nodup →
      ord.foldl (fun a o => completeLoad .dontWaitAll a o (res o)) st =
        { registry := ord.foldl (fun r o => loadModel r o (res o)) st.registry,
          sceneChildren :=
            st.sceneChildren ++ (ord.filter res).map (fun o => o.id.toStr),
          hiddenCalls :=
            st.hiddenCalls ++ (ord.filter res).filterMap (fun o => o.linkedIds),
          rerenders := st.rerenders + (ord.filter res).length } := by
  intro ord
  induction ord with
  | nil => intro st _ _; simp
  | cons o ord ih =>
    intro st hfresh hnodup
    have hnd : (ord.map (fun o => o.id.toStr)).Nodup := by
      rw [List.map_cons] at hnodup; exact hnodup.of_cons
    cases hres : res o with
    | false =>
      have hstep : completeLoad .dontWaitAll st o (res o) = st := by
        rw [hres]; rfl
      have hload : loadModel st.registry o (res o) = st.registry := by
        rw [hres]; rfl
      rw [List.foldl_cons, hstep,
        ih st (fun o' h' => hfresh o' (List.mem_cons_of_mem _ h')) hnd,
        List.foldl_cons, hload]
      simp [List.filter_cons, hres]
    | true =>
      have hid : o.id.toStr ∉ st.sceneChildren := hfresh o (List.mem_cons_self _ _)
      have hstep : completeLoad .dontWaitAll st o (res o) =
          { registry := registryInsert st.registry o.id.toStr,
            sceneChildren := st.sceneChildren ++ [o.id.toStr],
            hiddenCalls := st.hiddenCalls ++ o.linkedIds.toList,
            rerenders := st.rerenders + 1 } := by
        rw [hres]
        simp only [completeLoad, loadModel, if_true]
        rw [if_pos (mem_registryInsert_self st.registry o.id.toStr),
          sceneAdd_not_mem _ _ hid]
      have hfresh' : ∀ o' ∈ ord,
          o'.id.toStr ∉ st.sceneChildren ++ [o.id.toStr] := by
        intro o' h'
        simp only [List.mem_append, List.mem_singleton]
        rintro (hc | hc)
        · exact hfresh o' (List.mem_cons_of_mem _ h') hc
        · rw [List.map_cons] at hnodup
          exact (List.nodup_cons.mp hnodup).1 (hc ▸ List.mem_map_of_mem _ h')
      have hload : loadModel st.registry o (res o) =
          registryInsert st.registry o.id.toStr := by
        rw [hres]; rfl
      rw [List.foldl_cons, hstep, ih _ hfresh' hnd, List.foldl_cons, hload]
      cases hl : o.linkedIds <;>
        simp [List.filter_cons, hres, List.filterMap_cons, hl,
          List.append_assoc, Nat.add_comm, Nat.add_assoc, Nat.add_left_comm]

/-- Claim C3: under the dontWaitAll strategy, each individual load of an
addModels batch, as it resolves, hides the linked feature identifiers of
its request when present, attaches its model to the scene graph and
triggers a host redraw, all in load completion order; a failing sibling
load makes the returned promise fail but retracts nothing, so a batch of N
requests with exactly one failing request ends with exactly N-1 of its
models attached. -/
theorem claim_C3_dontWaitAll_incremental (s : PluginState)
    (requests : List ModelOptions) (res : ModelOptions → Bool)
    (ord : List ModelOptions) (hperm : ord.Perm requests)
    (hnodup : (requests.map (fun o => o.id.toStr)).Nodup)
    (hfresh : ∀ o ∈ requests, o.id.toStr ∉ s.sceneChildren) :
    (addModels .dontWaitAll s requests res ord).1.sceneChildren =
      s.sceneChildren ++ (ord.filter res).map (fun o => o.id.toStr) ∧
    (addModels .dontWaitAll s requests res ord).1.hiddenCalls =
      s.hiddenCalls ++ (ord.filter res).filterMap (fun o => o.linkedIds) ∧
    (addModels .dontWaitAll s requests res ord).1.rerenders =
      s.rerenders + (ord.filter res).length ∧
    (addModels .dontWaitAll s requests res ord).2 = requests.all res ∧
    (requests.countP (fun o => !(res o)) = 1 →
      (addModels .dontWaitAll s requests res ord).1.sceneChildren.length + 1 =
        s.sceneChildren.length + requests.length) := by
  have hstate : addModels .dontWaitAll s requests res ord =
      (ord.foldl (fun a o => completeLoad .dontWaitAll a o (res o)) s,
        requests.all res) := by
    cases h : requests.all res <;> simp [addModels, h]
  have hfold := foldl_completeLoad_dontWaitAll res ord s
    (fun o h => hfresh o (hperm.subset h))
    ((hperm.map (fun o => o.id.toStr)).nodup_iff.mpr hnodup)
  rw [hstate, hfold]
  refine ⟨rfl, rfl, rfl, rfl, ?_⟩
  intro hone
  have hcnt : (ord.filter res).length = requests.countP res := by
    rw [← List.countP_eq_length_filter]
    exact hperm.countP_eq res
  have hsum : requests.length =
      requests.countP res + requests.countP (fun o => !(res o)) := by
    have := List.length_eq_countP_add_countP (p := res) (l := requests)
    rw [this]
    congr 1
    apply List.countP_congr
    intro x _
    cases h : res x <;> simp [h]
  simp only [List.length_append, List.length_map, hcnt]
  omega

/-- Witness for claim C3: the batch [A, B, C] with the load of B failing,
completing in the order C, B, A, reveals C then A incrementally, records
the hide of the linked identifiers of C, triggers two redraws, rejects, and
ends with exactly two of the three batch models attached. -/
theorem claim_C3_witness :
    (List.Perm [optionsC, optionsB, optionsA] [optionsA, optionsB, optionsC] ∧
      ([optionsA, optionsB, optionsC].map (fun o => o.id.toStr)).Nodup ∧
      [optionsA, optionsB, optionsC].countP (fun o => !(failB o)) = 1) ∧
    (addModels .dontWaitAll initialState [optionsA, optionsB, optionsC] failB
        [optionsC, optionsB, optionsA]).1.sceneChildren = ["C", "A"] ∧
    (addModels .dontWaitAll initialState [optionsA, optionsB, optionsC] failB
        [optionsC, optionsB, optionsA]).1.hiddenCalls = [["c1"]] ∧
    (addModels .dontWaitAll initialState [optionsA, optionsB, optionsC] failB
        [optionsC, optionsB, optionsA]).1.rerenders = 2 ∧
    (addModels .dontWaitAll initialState [optionsA, optionsB, optionsC] failB
        [optionsC, optionsB, optionsA]).2 = false ∧
    (addModels .dontWaitAll initialState [optionsA, optionsB, optionsC] failB
        [optionsC, optionsB, optionsA]).1.sceneChildren.length + 1 = 0 + 3 := by
  have h := claim_C3_dontWaitAll_incremental initialState
    [optionsA, optionsB, optionsC] failB [optionsC, optionsB, optionsA]
    (by decide) (by decide) (by decide)
  refine ⟨⟨by decide, by decide, by decide⟩, ?_, ?_, ?_, ?_, ?_⟩
  · rw [h.1]; decide
  · rw [h.2.1]; decide
  · rw [h.2.2.1]; decide
  · rw [h.2.2.2.1]; decide
  · exact h.2.2.2.2 (by decide)

/-! ### removeModel: claims C9, C10, C8 -/

/-- Claim C9: for every identifier whose normalized form is not present in
the model registry, removeModel is a no-op: the whole plugin state —
registry, scene graph, hidden feature calls and redraw counter — is
returned unchanged, and no error is possible since the operation returns at
the failed lookup. -/
theorem claim_C9_removeModel_absent_noop (s : PluginState) (id : JsId)
    (h : id.toStr ∉ s.registry) : removeModel s id = s := by
  simp [removeModel, h]

/-- Witness for claim C9: removing the absent identifier Z from the fresh
state changes nothing. -/
theorem claim_C9_witness :
    (JsId.str "Z").toStr ∉ initialState.registry ∧
    removeModel initialState (JsId.str "Z") = initialState :=
  ⟨by decide,
   claim_C9_removeModel_absent_noop initialState (JsId.str "Z") (by decide)⟩

theorem removeModel_registry (s : PluginState) (id : JsId) :
    (removeModel s id).registry = s.registry := by
  by_cases h : id.toStr ∈ s.registry <;> simp [removeModel, h]

theorem addModels_waitAll_ok_state (s : PluginState)
    (requests : List ModelOptions) (res : ModelOptions → Bool)
    (ord : List ModelOptions) (hall : requests.all res = true) :
    addModels .waitAll s requests res ord =
      ({ registry := ord.foldl (fun r o => loadModel r o (res o)) s.registry,
         sceneChildren :=
           (ord.foldl (fun r o => loadModel r o (res o)) s.registry).foldl
             sceneAdd s.sceneChildren,
         hiddenCalls := s.hiddenCalls ++ requests.filterMap (fun o => o.linkedIds),
         rerenders := s.rerenders + 1 }, true) := by
  simp only [addModels, hall, if_true]
  rw [foldl_completeLoad_waitAll, foldl_hide_linked]

/-- Claim C10: removeModel on a present identifier detaches the node from
the scene graph but never removes the registry entry; consequently, any
later fully successful waitAll addModels call attaches the previously
removed model to the scene graph again, since the waitAll reveal iterates
over the entire registry. -/
theorem claim_C10_removeModel_keeps_registry (s : PluginState) (id : JsId)
    (hmem : id.toStr ∈ s.registry)
    (requests : List ModelOptions) (res : ModelOptions → Bool)
    (ord : List ModelOptions) (_hperm : ord.Perm requests)
    (hok : ∀ o ∈ requests, res o = true) :
    (removeModel s id).registry = s.registry ∧
    (removeModel s id).sceneChildren = sceneRemove s.sceneChildren id.toStr ∧
    id.toStr ∈ (addModels .waitAll (removeModel s id) requests res
      ord).1.sceneChildren := by
  refine ⟨removeModel_registry s id, by simp [removeModel, hmem], ?_⟩
  rw [addModels_waitAll_ok_state _ _ _ _ (List.all_eq_true.mpr hok)]
  exact mem_foldl_sceneAdd_of_mem_registry _ _ _
    (mem_foldl_loadModel_of_mem res ord _ _
      ((removeModel_registry s id).symm ▸ hmem))

/-- Witness for claim C10: removing the registered and attached model A
detaches it but keeps its registry entry, and a later successful waitAll
batch containing only C re-attaches A. -/
theorem claim_C10_witness :
    ((JsId.str "A").toStr ∈ stateWithA.registry ∧
      List.Perm [optionsC] [optionsC] ∧ ∀ o ∈ [optionsC], allOk o = true) ∧
    (removeModel stateWithA (JsId.str "A")).registry = ["A"] ∧
    (removeModel stateWithA (JsId.str "A")).sceneChildren = [] ∧
    "A" ∈ (addModels .waitAll (removeModel stateWithA (JsId.str "A"))
      [optionsC] allOk [optionsC]).1.sceneChildren := by
  have h := claim_C10_removeModel_keeps_registry stateWithA (JsId.str "A")
    (by decide) [optionsC] allOk [optionsC] (by decide) (by decide)
  refine ⟨⟨by decide, by decide, by decide⟩, ?_, ?_, h.2.2⟩
  · rw [h.1]; decide
  · rw [h.2.1]; decide

/-- Counterexample to claim C8: in the waitAll scenario where the load of B
fails, the model A ends in the registry because its own load succeeded, so
the later removeModel of A passes the registry lookup and triggers a host
redraw — it is not free of redraws as the claim states. -/
theorem claim_C8_counterexample :
    (removeModel
        (addModels .waitAll initialState [optionsA, optionsB] failB
          [optionsA, optionsB]).1 (JsId.str "A")).rerenders = 1 ∧
    (addModels .waitAll initialState [optionsA, optionsB] failB
        [optionsA, optionsB]).1.rerenders = 0 := by
  decide

/-- Claim C8 as amended: with the waitAll strategy and a two model batch
[A, B] in which the decode of B fails, the addModels promise rejects and
neither model is ever attached to the scene graph, whichever of the two
completion orders occurs; a subsequent removeModel of A raises no error and
leaves the scene graph unchanged, but it does trigger one host redraw,
because the successful load of A left A in the model registry. -/
theorem claim_C8_amended_scenario :
    (addModels .waitAll initialState [optionsA, optionsB] failB
        [optionsA, optionsB]).2 = false ∧
    (addModels .waitAll initialState [optionsA, optionsB] failB
        [optionsA, optionsB]).1.sceneChildren = [] ∧
    (addModels .waitAll initialState [optionsA, optionsB] failB
        [optionsB, optionsA]).1.sceneChildren = [] ∧
    (removeModel
        (addModels .waitAll initialState [optionsA, optionsB] failB
          [optionsA, optionsB]).1 (JsId.str "A")).sceneChildren = [] ∧
    (removeModel
        (addModels .waitAll initialState [optionsA, optionsB] failB
          [optionsA, optionsB]).1 (JsId.str "A")).registry = ["A"] ∧
    (removeModel
        (addModels .waitAll initialState [optionsA, optionsB] failB
          [optionsA, optionsB]).1 (JsId.str "A")).rerenders = 1 := by
  decide

/-! ### Event dispatch: claim C2 -/

/-- Counterexample to claim C2: even with a raycaster that reports a mesh
hit at the pointer, the mouseover handler emits only its poi flavored event
and performs no mesh hit test at all, so it is not the case that every one
of the four pointer events can emit a model flavored event on a mesh hit. -/
theorem claim_C2_counterexample :
    (getEventTargetMesh sampleRaycast sampleViewport samplePoiEvent.clientX
        samplePoiEvent.clientY).isSome = true ∧
    (handleHostEvent sampleRaycast sampleViewport .mouseover samplePoiEvent).1 =
      [PluginEvent.mouseoverPoi samplePoiEvent] ∧
    (handleHostEvent sampleRaycast sampleViewport .mouseover
        samplePoiEvent).1.any isModelEvent = false ∧
    (handleHostEvent sampleRaycast sampleViewport .mouseover
        samplePoiEvent).2 = 0 :=
  ⟨rfl, rfl, rfl, rfl⟩

/-- Claim C2 as amended: each of the four pointer events mousemove,
mouseover, mouseout and click is dispatched through the poi classifier and
emits its poi flavored event exactly when the classifier holds; but only
the click handler turns the pointer-to-mesh hit test into an event: a model
flavored event — carrying the model identifier of the hit mesh, the
geographic coordinate, the screen point and the original input event — is
emitted exactly on a click with a mesh hit, while mousemove runs the hit
test without emitting anything from it and mouseover and mouseout never run
it. -/
theorem claim_C2_amended_only_click_emits_model
    (rc : ℚ × ℚ → List Intersection) (v : Viewport) (e : MapPointerEvent) :
    ∀ he ∈ [HostEvent.mousemove, HostEvent.mouseover, HostEvent.mouseout,
        HostEvent.click],
      ((handleHostEvent rc v he e).1.any isPoiEvent = isGeoJsonPoi e) ∧
      ((handleHostEvent rc v he e).1.any isModelEvent =
        (decide (he = HostEvent.click) &&
          (getEventTargetMesh rc v e.clientX e.clientY).isSome)) ∧
      ((handleHostEvent rc v he e).2 ≠ 0 ↔
        (he = HostEvent.click ∨ he = HostEvent.mousemove)) ∧
      (∀ t, he = HostEvent.click →
        getEventTargetMesh rc v e.clientX e.clientY = some t →
        PluginEvent.clickModel t.object.userDataModelId e.lngLat e.point
          e.originalEvent ∈ (handleHostEvent rc v he e).1) := by
  intro he hmem
  have hcases : he = HostEvent.mousemove ∨ he = HostEvent.mouseover ∨
      he = HostEvent.mouseout ∨ he = HostEvent.click := by simpa using hmem
  rcases hcases with rfl | rfl | rfl | rfl
  · refine ⟨?_, ?_, by simp [handleHostEvent], ?_⟩
    · by_cases hp : isGeoJsonPoi e <;> simp [handleHostEvent, hp, isPoiEvent]
    · by_cases hp : isGeoJsonPoi e <;> simp [handleHostEvent, hp, isModelEvent]
    · intro t hcl _; cases hcl
  · refine ⟨?_, ?_, by simp [handleHostEvent], ?_⟩
    · by_cases hp : isGeoJsonPoi e <;> simp [handleHostEvent, hp, isPoiEvent]
    · by_cases hp : isGeoJsonPoi e <;> simp [handleHostEvent, hp, isModelEvent]
    · intro t hcl _; cases hcl
  · refine ⟨?_, ?_, by simp [handleHostEvent], ?_⟩
    · by_cases hp : isGeoJsonPoi e <;> simp [handleHostEvent, hp, isPoiEvent]
    · by_cases hp : isGeoJsonPoi e <;> simp [handleHostEvent, hp, isModelEvent]
    · intro t hcl _; cases hcl
  · refine ⟨?_, ?_, by simp [handleHostEvent], ?_⟩
    · by_cases hp : isGeoJsonPoi e <;>
        cases hm : getEventTargetMesh rc v e.clientX e.clientY <;>
        simp [handleHostEvent, hp, hm, isPoiEvent, isModelEvent]
    · by_cases hp : isGeoJsonPoi e <;>
        cases hm : getEventTargetMesh rc v e.clientX e.clientY <;>
        simp [handleHostEvent, hp, hm, isPoiEvent, isModelEvent]
    · intro t _ hm
      by_cases hp : isGeoJsonPoi e <;> simp [handleHostEvent, hp, hm]

/-- Witness for the amended claim C2 at the click event with a concrete poi
flavored pointer event and a raycaster reporting a mesh hit. -/
theorem claim_C2_amended_witness :
    HostEvent.click ∈ [HostEvent.mousemove, HostEvent.mouseover,
      HostEvent.mouseout, HostEvent.click] ∧
    (handleHostEvent sampleRaycast sampleViewport HostEvent.click
        samplePoiEvent).1.any isModelEvent =
      (decide (HostEvent.click = HostEvent.click) &&
        (getEventTargetMesh sampleRaycast sampleViewport samplePoiEvent.clientX
          samplePoiEvent.clientY).isSome) :=
  ⟨by decide,
   ((claim_C2_amended_only_click_emits_model sampleRaycast sampleViewport
      samplePoiEvent) HostEvent.click (by decide)).2.1⟩

/-! ### Camera synchronization: claim C6 -/

theorem mat4Invert_left_mul (m : Mat4) (h : m.det ≠ 0) :
    mat4Invert m * m = 1 := by
  unfold mat4Invert
  rw [if_neg h, Matrix.smul_mul, Matrix.adjugate_mul, smul_smul,
    inv_mul_cancel₀ h, one_smul]

/-- Claim C6: each frame the render routine sets the camera world inverse
matrix to inverse(pluginProjection) * genericProjection, where
pluginProjection is the host off-axis projection matrix for this plugin and
genericProjection is the host generic projection matrix; it sets the camera
world matrix to the inverse of that product — a genuine left inverse
whenever the product is invertible — copies it into the camera matrix and
decomposes that matrix into the camera position, rotation quaternion and
scale. -/
theorem claim_C6_render_camera (decompose : Mat4 → Vec3 × Quat × Vec3)
    (pluginProjection genericProjection : Mat4) :
    (renderCamera decompose pluginProjection genericProjection).matrixWorldInverse =
      mat4Invert pluginProjection * genericProjection ∧
    (renderCamera decompose pluginProjection genericProjection).matrixWorld =
      mat4Invert
        ((renderCamera decompose pluginProjection genericProjection).matrixWorldInverse) ∧
    (renderCamera decompose pluginProjection genericProjection).matrix =
      (renderCamera decompose pluginProjection genericProjection).matrixWorld ∧
    (renderCamera decompose pluginProjection genericProjection).position =
      (decompose
        (renderCamera decompose pluginProjection genericProjection).matrix).1 ∧
    (renderCamera decompose pluginProjection genericProjection).quaternion =
      (decompose
        (renderCamera decompose pluginProjection genericProjection).matrix).2.1 ∧
    (renderCamera decompose pluginProjection genericProjection).scale =
      (decompose
        (renderCamera decompose pluginProjection genericProjection).matrix).2.2 ∧
    ((mat4Invert pluginProjection * genericProjection).det ≠ 0 →
      (renderCamera decompose pluginProjection genericProjection).matrixWorld *
        (renderCamera decompose pluginProjection genericProjection).matrixWorldInverse
          = 1) := by
  refine ⟨rfl, rfl, rfl, rfl, rfl, rfl, ?_⟩
  intro h
  exact mat4Invert_left_mul _ h

/-- Witness for claim C6 at the identity projection pair: the product is
invertible and the recomputed world matrix is a left inverse of the world
inverse matrix. -/
theorem claim_C6_witness :
    (mat4Invert (1 : Mat4) * (1 : Mat4)).det ≠ 0 ∧
    (renderCamera decomposeZero 1 1).matrixWorld *
      (renderCamera decomposeZero 1 1).matrixWorldInverse = 1 := by
  have hdet : (mat4Invert (1 : Mat4) * (1 : Mat4)).det ≠ 0 := by
    rw [mul_one]
    unfold mat4Invert
    rw [if_neg (by simp : ¬(1 : Mat4).det = 0)]
    simp
  exact ⟨hdet,
    (claim_C6_render_camera decomposeZero 1 1).2.2.2.2.2.2 hdet⟩

end MapglGltf
